import Mathlib

/-!
Shallow embedding of `thorlabs_DDS100.py` (class `Controller`): a serial
driver for a Thorlabs DDS100 stage with a KBD101 controller.

Millimeter quantities are modelled as exact rationals (the source uses
Python floats; every value the claims touch is an exact small rational).
The serial port is modelled as a scripted transport: `Port.script` is the
ordered list of reply bursts the device will deliver, one burst becoming
available per host read; `Port.rx` is the arrived-but-unread bytes and
`Port.tx` the full sequence of bytes written by the host.  Each Python
method becomes a state-passing function
`Ctl → Port → Except Err α × Ctl × Port`; a Python exception
(AssertionError, IndexError, AttributeError, OverflowError,
UnicodeDecodeError, TypeError) becomes the corresponding `Err` value, and
the returned `Ctl`/`Port` are the object attributes and transport at the
moment the exception escapes.
-/

namespace DDS100

/-- Python's `round` on an exact rational: round half to even. -/
def round_half_even (q : ℚ) : ℤ :=
  let f : ℤ := ⌊q⌋
  let r : ℚ := q - (f : ℚ)
  if r < 1/2 then f
  else if 1/2 < r then f + 1
  else if f % 2 = 0 then f else f + 1

/-- `int.from_bytes(bs, byteorder='little')` (unsigned, Python default). -/
def bytes_to_nat_le : List ℕ → ℕ
  | [] => 0
  | b :: bs => b + 256 * bytes_to_nat_le bs

/-- Little-endian byte list (length `k`) of a natural number, mod 2^(8k). -/
def nat_to_le : ℕ → ℕ → List ℕ
  | 0, _ => []
  | k + 1, n => n % 256 :: nat_to_le k (n / 256)

/-- `int.from_bytes(bs, byteorder='little', signed=True)`: the signed
little-endian reading of a byte list.  The source never uses this on
replies; it is stated here so the claimed (spec-side) decoding of the
position field can be compared against what the code actually does. -/
def bytes_to_int_le_signed (bs : List ℕ) : ℤ :=
  let u : ℕ := bytes_to_nat_le bs
  if (u : ℤ) < 2 ^ (8 * bs.length - 1) then (u : ℤ)
  else (u : ℤ) - 2 ^ (8 * bs.length)

/-- Python exceptions that can escape the modelled methods. -/
inductive Err where
  | assertionError
  | indexError
  | attributeError
  | overflowError
  | decodeError
  | typeError
deriving DecidableEq, Repr

/-- `n.to_bytes(k, byteorder='little', signed=True)`: OverflowError when
`n` does not fit in `k` signed bytes, else the little-endian bytes of
`n mod 2^(8k)`. -/
def to_bytes_le_signed (k : ℕ) (n : ℤ) : Except Err (List ℕ) :=
  if -(2 ^ (8 * k - 1)) ≤ n ∧ n < 2 ^ (8 * k - 1) then
    Except.ok (nat_to_le k ((n % (2 ^ (8 * k) : ℤ)).toNat))
  else Except.error Err.overflowError

/-- Session constants fixed in `__init__` (lines 26-31 of the source). -/
def position_min_mm : ℚ := 0

def position_max_mm : ℚ := 100

def range_tol_mm : ℚ := 0.1

def EncCnt_per_mm : ℚ := 2000

def offset_mm : ℚ := 0.05

def offset_counts : ℤ := round_half_even (offset_mm * EncCnt_per_mm)

/-- Mutable attributes of the `Controller` object.  Attributes that the
source only creates partway through (`position_mm`, `ch_id_bytes`) are
`Option`s: reading them while `none` is Python's AttributeError. -/
structure Ctl where
  model_number : List ℕ
  type : ℕ
  serial_number : ℕ
  firmware_v : ℕ
  hardware_v : ℕ
  enable : Bool
  position_mm : Option ℚ
  ch_id_bytes : Option (List ℕ)
  moving : Bool
deriving DecidableEq, Repr

/-- The controller state right after the port is opened, before
`_get_info` runs: no identity, no cached position, no channel id. -/
def init_ctl : Ctl :=
  { model_number := [], type := 0, serial_number := 0, firmware_v := 0,
    hardware_v := 0, enable := false, position_mm := none,
    ch_id_bytes := none, moving := false }

/-- Scripted serial transport.  `script` holds the reply bursts the
device will emit, in order; a burst arrives when the host performs a read
that the bytes already in `rx` cannot satisfy.  `tx` records every byte
the host has written. -/
structure Port where
  script : List (List ℕ)
  rx : List ℕ
  tx : List ℕ
deriving DecidableEq, Repr

/-- `port.write(cmd)`. -/
def Port.write (p : Port) (cmd : List ℕ) : Port :=
  { p with tx := p.tx ++ cmd }

/-- `port.read(n)`: blocks until `n` bytes are available or the device's
next burst has arrived and the timeout passes; returns at most `n` bytes,
leaving the surplus in `rx`. -/
def Port.read (p : Port) (n : ℕ) : List ℕ × Port :=
  if p.rx.length < n then
    match p.script with
    | [] => (p.rx.take n, { p with rx := p.rx.drop n })
    | r :: rest =>
        ((p.rx ++ r).take n,
         { p with script := rest, rx := (p.rx ++ r).drop n })
  else (p.rx.take n, { p with rx := p.rx.drop n })

/-- `port.inWaiting()`. -/
def Port.inWaiting (p : Port) : ℕ := p.rx.length

/-- The result of one modelled method call. -/
abbrev Res (α : Type) := Except Err α × Ctl × Port

/-- `Controller._send(cmd, response_bytes)`: write the command, read the
reply when one is expected, and assert that no unread bytes remain. -/
def _send (cmd : List ℕ) (response_bytes : Option ℕ) (s : Ctl) (p : Port) :
    Res (Option (List ℕ)) :=
  let p1 := p.write cmd
  match response_bytes with
  | some n =>
      let rp := p1.read n
      if rp.2.inWaiting = 0 then (Except.ok (some rp.1), s, rp.2)
      else (Except.error Err.assertionError, s, rp.2)
  | none =>
      if p1.inWaiting = 0 then (Except.ok none, s, p1)
      else (Except.error Err.assertionError, s, p1)

def get_info_cmd : List ℕ := [5, 0, 0, 0, 80, 1]

def get_enable_cmd : List ℕ := [17, 2, 0, 0, 80, 1]

def set_enable_true_cmd : List ℕ := [16, 2, 0, 1, 80, 1]

def set_enable_false_cmd : List ℕ := [16, 2, 0, 2, 80, 1]

def home_cmd : List ℕ := [67, 4, 0, 0, 80, 1]

def get_pos_cmd : List ℕ := [17, 4, 0, 0, 80, 1]

/-- The model-number bytes of the single supported variant,
`'KBD101\x00\x00'` as ASCII. -/
def KBD101_bytes : List ℕ := [75, 66, 68, 49, 48, 49, 0, 0]

/-- `bytes.decode('ascii')` succeeds exactly when every byte is < 128. -/
def ascii_ok (l : List ℕ) : Bool := l.all (fun b => b < 128)

/-- `Controller._get_info`: send the info request, read the 90-byte
reply, decode the identity fields. -/
def _get_info (s : Ctl) (p : Port) : Res (List ℕ) :=
  match _send get_info_cmd (some 90) s p with
  | (Except.error e, s1, p1) => (Except.error e, s1, p1)
  | (Except.ok none, s1, p1) => (Except.error Err.typeError, s1, p1)
  | (Except.ok (some r), s1, p1) =>
      if ascii_ok ((r.drop 10).take 8) then
        (Except.ok r,
         { s1 with
             model_number := (r.drop 10).take 8,
             type := bytes_to_nat_le ((r.drop 18).take 2),
             serial_number := bytes_to_nat_le ((r.drop 6).take 4),
             firmware_v := bytes_to_nat_le ((r.drop 20).take 4),
             hardware_v := bytes_to_nat_le ((r.drop 84).take 2) }, p1)
      else (Except.error Err.decodeError, s1, p1)

/-- `Controller._get_enable`: send the enable query, read 6 bytes,
assert the status byte is 1 or 2, map 1 to enabled and 2 to disabled. -/
def _get_enable (s : Ctl) (p : Port) : Res Bool :=
  match _send get_enable_cmd (some 6) s p with
  | (Except.error e, s1, p1) => (Except.error e, s1, p1)
  | (Except.ok none, s1, p1) => (Except.error Err.typeError, s1, p1)
  | (Except.ok (some r), s1, p1) =>
      match r.get? 3 with
      | none => (Except.error Err.indexError, s1, p1)
      | some b =>
          if b = 1 then (Except.ok true, { s1 with enable := true }, p1)
          else if b = 2 then
            (Except.ok false, { s1 with enable := false }, p1)
          else (Except.error Err.assertionError, s1, p1)

/-- `Controller._set_enable(enable)`: send the set command (no reply),
then query the state back and assert it matches the request. -/
def _set_enable (enable : Bool) (s : Ctl) (p : Port) : Res Unit :=
  let cmd := if enable then set_enable_true_cmd else set_enable_false_cmd
  match _send cmd none s p with
  | (Except.error e, s1, p1) => (Except.error e, s1, p1)
  | (Except.ok _, s1, p1) =>
      match _get_enable s1 p1 with
      | (Except.error e, s2, p2) => (Except.error e, s2, p2)
      | (Except.ok b, s2, p2) =>
          if b = enable then (Except.ok (), s2, p2)
          else (Except.error Err.assertionError, s2, p2)

/-- `Controller._home`: send the home command and block on a 6-byte
acknowledgment. -/
def _home (s : Ctl) (p : Port) : Res Unit :=
  match _send home_cmd (some 6) s p with
  | (Except.error e, s1, p1) => (Except.error e, s1, p1)
  | (Except.ok _, s1, p1) => (Except.ok (), s1, p1)

/-- `Controller.get_position_mm`: send the position query, read the
12-byte reply, cache the channel id bytes `reply[6:8]`, decode
`reply[8:12]` little-endian (unsigned: the source's `int.from_bytes`
default), convert to millimeters and subtract the zero offset. -/
def get_position_mm (s : Ctl) (p : Port) : Res ℚ :=
  match _send get_pos_cmd (some 12) s p with
  | (Except.error e, s1, p1) => (Except.error e, s1, p1)
  | (Except.ok none, s1, p1) => (Except.error Err.typeError, s1, p1)
  | (Except.ok (some r), s1, p1) =>
      let ch := (r.drop 6).take 2
      let position_counts : ℕ := bytes_to_nat_le ((r.drop 8).take 4)
      let pmm : ℚ := (position_counts : ℚ) / EncCnt_per_mm - offset_mm
      (Except.ok pmm,
       { s1 with ch_id_bytes := some ch, position_mm := some pmm }, p1)

/-- `Controller._finish_move`: a no-op when not moving; otherwise read
20 bytes from the port, discard them, and clear the moving flag.  Note
the raw `port.read(20)` — no leftover-bytes assertion here. -/
def _finish_move (s : Ctl) (p : Port) : Res Unit :=
  if s.moving then (Except.ok (), { s with moving := false }, (p.read 20).2)
  else (Except.ok (), s, p)

/-- The legalized millimeter value of a request (`move_mm` lines
132-133): snap to the nearest encoder count and convert back. -/
def legalize_mm (m : ℚ) : ℚ :=
  (round_half_even (m * EncCnt_per_mm) : ℚ) / EncCnt_per_mm

/-- Shared tail of `move_mm` (source lines 147-152): range-check the
cached position, send the command (no reply), set the moving flag, and
when blocking immediately finish the move. -/
def move_tail (cmd : List ℕ) (block : Bool) (s : Ctl) (p : Port) :
    Res Unit :=
  match s.position_mm with
  | none => (Except.error Err.attributeError, s, p)
  | some pos =>
      if position_min_mm - range_tol_mm ≤ pos then
        if pos ≤ position_max_mm + range_tol_mm then
          match _send cmd none s p with
          | (Except.error e, s1, p1) => (Except.error e, s1, p1)
          | (Except.ok _, s1, p1) =>
              let s2 := { s1 with moving := true }
              if block then _finish_move s2 p1 else (Except.ok (), s2, p1)
        else (Except.error Err.assertionError, s, p)
      else (Except.error Err.assertionError, s, p)

/-- `Controller.move_mm(move_mm, relative, block)`: drain a pending move,
legalize the request, build the relative or absolute move command (the
zero offset is added to the counts only in the absolute branch; the
cached position is updated before the range check runs), then run the
range-checked send. -/
def move_mm (move_arg : ℚ) (relative block : Bool) (s : Ctl) (p : Port) :
    Res Unit :=
  match (if s.moving then _finish_move s p else (Except.ok (), s, p)) with
  | (Except.error e, s1, p1) => (Except.error e, s1, p1)
  | (Except.ok _, s1, p1) =>
      let position_counts : ℤ := round_half_even (move_arg * EncCnt_per_mm)
      let mv : ℚ := (position_counts : ℚ) / EncCnt_per_mm
      let d : ℕ := 208
      if relative then
        match s1.position_mm with
        | none => (Except.error Err.attributeError, s1, p1)
        | some pos =>
            let s2 := { s1 with position_mm := some (pos + mv) }
            match to_bytes_le_signed 4 position_counts with
            | Except.error e => (Except.error e, s2, p1)
            | Except.ok pb =>
                match s2.ch_id_bytes with
                | none => (Except.error Err.attributeError, s2, p1)
                | some ch =>
                    move_tail ([72, 4, 6, 0] ++ [d, 1] ++ ch ++ pb) block
                      s2 p1
      else
        let s2 := { s1 with position_mm := some mv }
        let position_counts2 := position_counts + offset_counts
        match to_bytes_le_signed 4 position_counts2 with
        | Except.error e => (Except.error e, s2, p1)
        | Except.ok pb =>
            match s2.ch_id_bytes with
            | none => (Except.error Err.attributeError, s2, p1)
            | some ch =>
                move_tail ([83, 4, 6, 0] ++ [d, 1] ++ ch ++ pb) block s2 p1

/-- `Controller.__init__` after the port has been opened: fetch and
validate the identity, enable (self-verified), home, query the position
once, clear the moving flag, and issue a blocking absolute move to 0. -/
def init_controller (s : Ctl) (p : Port) : Res Unit :=
  match _get_info s p with
  | (Except.error e, s1, p1) => (Except.error e, s1, p1)
  | (Except.ok _, s1, p1) =>
      if s1.model_number = KBD101_bytes then
        if s1.firmware_v = 131080 then
          match _set_enable true s1 p1 with
          | (Except.error e, s2, p2) => (Except.error e, s2, p2)
          | (Except.ok _, s2, p2) =>
              match _home s2 p2 with
              | (Except.error e, s3, p3) => (Except.error e, s3, p3)
              | (Except.ok _, s3, p3) =>
                  match get_position_mm s3 p3 with
                  | (Except.error e, s4, p4) => (Except.error e, s4, p4)
                  | (Except.ok _, s4, p4) =>
                      move_mm 0 false true { s4 with moving := false } p4
        else (Except.error Err.assertionError, s1, p1)
      else (Except.error Err.assertionError, s1, p1)

/-- A representative mid-session controller state: identity validated,
enabled, channel id captured, cached position 50 mm, idle. -/
def sample_ctl : Ctl :=
  { model_number := KBD101_bytes, type := 44, serial_number := 1234,
    firmware_v := 131080, hardware_v := 1, enable := true,
    position_mm := some 50, ch_id_bytes := some [1, 0], moving := false }

/-- A quiet transport: no scripted replies, nothing pending, nothing sent. -/
def empty_port : Port := ⟨[], [], []⟩

/-- A 12-byte position reply whose counts field is `0xFFFFFFFF`. -/
def pos_reply_ffff : List ℕ := [1, 2, 3, 4, 5, 6, 7, 9, 255, 255, 255, 255]

/-- A truncated (6-byte) reply to the position query. -/
def pos_reply_short : List ℕ := [17, 4, 0, 6, 208, 1]

/-! ### Evaluation lemmas for the arithmetic helpers -/

theorem round_half_even_intCast (n : ℤ) : round_half_even (n : ℚ) = n := by
  unfold round_half_even
  rw [Int.floor_intCast, if_pos]
  norm_num

theorem offset_counts_eq : offset_counts = 100 := by
  have h : offset_mm * EncCnt_per_mm = ((100 : ℤ) : ℚ) := by
    norm_num [offset_mm, EncCnt_per_mm]
  rw [offset_counts, h, round_half_even_intCast]

theorem EncCnt_per_mm_ne_zero : EncCnt_per_mm ≠ 0 := by
  norm_num [EncCnt_per_mm]

theorem legalize_mm_counts (c : ℤ) :
    legalize_mm ((c : ℚ) / EncCnt_per_mm) = (c : ℚ) / EncCnt_per_mm := by
  have h : ((c : ℚ) / EncCnt_per_mm) * EncCnt_per_mm = (c : ℚ) :=
    div_mul_cancel₀ _ EncCnt_per_mm_ne_zero
  rw [legalize_mm, h, round_half_even_intCast]

/-- The little-endian signed 4-byte image of an in-range integer. -/
def le4_signed (n : ℤ) : List ℕ := nat_to_le 4 ((n % (2 ^ 32 : ℤ)).toNat)

theorem to_bytes_le_signed_4 (n : ℤ) (h1 : -(2 ^ 31) ≤ n) (h2 : n < 2 ^ 31) :
    to_bytes_le_signed 4 n = Except.ok (le4_signed n) := by
  have e1 : (8 * 4 - 1 : ℕ) = 31 := by norm_num
  have e2 : (8 * 4 : ℕ) = 32 := by norm_num
  rw [to_bytes_le_signed, e1, e2, if_pos ⟨h1, h2⟩, le4_signed]

/-! ### Transport step lemmas -/

theorem read_burst_all (n : ℕ) (r : List ℕ) (rest : List (List ℕ))
    (rx tx : List ℕ) (hrx : rx = []) (hn : 0 < n) (h : r.length ≤ n) :
    Port.read ⟨r :: rest, rx, tx⟩ n = (r, ⟨rest, [], tx⟩) := by
  subst hrx
  unfold Port.read
  rw [if_pos (by simpa using hn)]
  simp [List.take_of_length_le h, List.drop_eq_nil_of_le h]

theorem read_burst_over (n : ℕ) (r : List ℕ) (rest : List (List ℕ))
    (rx tx : List ℕ) (hrx : rx = []) (hn : 0 < n) :
    Port.read ⟨r :: rest, rx, tx⟩ n = (r.take n, ⟨rest, r.drop n, tx⟩) := by
  subst hrx
  unfold Port.read
  rw [if_pos (by simpa using hn)]
  simp

theorem send_none_ok (s : Ctl) (cmd : List ℕ) (p : Port) (hrx : p.rx = []) :
    _send cmd none s p = (Except.ok none, s, { p with tx := p.tx ++ cmd }) := by
  simp [_send, Port.write, Port.inWaiting, hrx]

theorem send_some_ok (s : Ctl) (cmd : List ℕ) (n : ℕ) (r : List ℕ)
    (rest : List (List ℕ)) (tx : List ℕ) (hn : 0 < n) (h : r.length ≤ n) :
    _send cmd (some n) s ⟨r :: rest, [], tx⟩ =
      (Except.ok (some r), s, ⟨rest, [], tx ++ cmd⟩) := by
  unfold _send
  simp only [Port.write]
  rw [read_burst_all n r rest [] (tx ++ cmd) rfl hn h]
  simp [Port.inWaiting]

theorem send_some_leftover (s : Ctl) (cmd : List ℕ) (n : ℕ) (r : List ℕ)
    (rest : List (List ℕ)) (tx : List ℕ) (hn : 0 < n) (h : n < r.length) :
    _send cmd (some n) s ⟨r :: rest, [], tx⟩ =
      (Except.error Err.assertionError, s, ⟨rest, r.drop n, tx ++ cmd⟩) := by
  unfold _send
  simp only [Port.write]
  rw [read_burst_over n r rest [] (tx ++ cmd) rfl hn]
  have hne : ¬(r.length - n = 0) := by omega
  simp [Port.inWaiting, hne]

/-! ### Method step lemmas -/

theorem get_info_ok (s : Ctl) (r : List ℕ) (rest : List (List ℕ)) (tx : List ℕ)
    (hlen : r.length ≤ 90) (hascii : ascii_ok ((r.drop 10).take 8) = true) :
    _get_info s ⟨r :: rest, [], tx⟩ =
      (Except.ok r,
       { s with
           model_number := (r.drop 10).take 8,
           type := bytes_to_nat_le ((r.drop 18).take 2),
           serial_number := bytes_to_nat_le ((r.drop 6).take 4),
           firmware_v := bytes_to_nat_le ((r.drop 20).take 4),
           hardware_v := bytes_to_nat_le ((r.drop 84).take 2) },
       ⟨rest, [], tx ++ get_info_cmd⟩) := by
  unfold _get_info
  rw [send_some_ok s get_info_cmd 90 r rest tx (by norm_num) hlen]
  simp [hascii]

theorem get_enable_ok_one (s : Ctl) (r : List ℕ) (rest : List (List ℕ))
    (tx : List ℕ) (hlen : r.length ≤ 6) (h3 : r[3]? = some 1) :
    _get_enable s ⟨r :: rest, [], tx⟩ =
      (Except.ok true, { s with enable := true },
       ⟨rest, [], tx ++ get_enable_cmd⟩) := by
  unfold _get_enable
  rw [send_some_ok s get_enable_cmd 6 r rest tx (by norm_num) hlen]
  simp [h3]

theorem get_enable_ok_two (s : Ctl) (r : List ℕ) (rest : List (List ℕ))
    (tx : List ℕ) (hlen : r.length ≤ 6) (h3 : r[3]? = some 2) :
    _get_enable s ⟨r :: rest, [], tx⟩ =
      (Except.ok false, { s with enable := false },
       ⟨rest, [], tx ++ get_enable_cmd⟩) := by
  unfold _get_enable
  rw [send_some_ok s get_enable_cmd 6 r rest tx (by norm_num) hlen]
  simp [h3]

theorem get_enable_short (s : Ctl) (r : List ℕ) (rest : List (List ℕ))
    (tx : List ℕ) (hlen : r.length ≤ 3) :
    _get_enable s ⟨r :: rest, [], tx⟩ =
      (Except.error Err.indexError, s, ⟨rest, [], tx ++ get_enable_cmd⟩) := by
  unfold _get_enable
  rw [send_some_ok s get_enable_cmd 6 r rest tx (by norm_num) (by omega)]
  simp [List.getElem?_eq_none hlen]

theorem get_enable_bad (s : Ctl) (r : List ℕ) (rest : List (List ℕ))
    (tx : List ℕ) (b : ℕ) (hlen : r.length ≤ 6) (h3 : r[3]? = some b)
    (hb1 : b ≠ 1) (hb2 : b ≠ 2) :
    _get_enable s ⟨r :: rest, [], tx⟩ =
      (Except.error Err.assertionError, s, ⟨rest, [], tx ++ get_enable_cmd⟩) := by
  unfold _get_enable
  rw [send_some_ok s get_enable_cmd 6 r rest tx (by norm_num) hlen]
  simp [h3, hb1, hb2]

theorem set_enable_ok (flag : Bool) (s : Ctl) (r : List ℕ)
    (rest : List (List ℕ)) (tx : List ℕ) (hlen : r.length ≤ 6)
    (h3 : r[3]? = some (if flag then 1 else 2)) :
    _set_enable flag s ⟨r :: rest, [], tx⟩ =
      (Except.ok (), { s with enable := flag },
       ⟨rest, [],
        (tx ++ (if flag then set_enable_true_cmd else set_enable_false_cmd))
          ++ get_enable_cmd⟩) := by
  cases flag
  · simp only [Bool.false_eq_true, if_false] at h3 ⊢
    unfold _set_enable
    simp only [Bool.false_eq_true, if_false]
    rw [send_none_ok s set_enable_false_cmd ⟨r :: rest, [], tx⟩ rfl]
    dsimp only
    rw [get_enable_ok_two s r rest _ hlen h3]
    simp
  · simp only [if_true] at h3 ⊢
    unfold _set_enable
    simp only [if_true]
    rw [send_none_ok s set_enable_true_cmd ⟨r :: rest, [], tx⟩ rfl]
    dsimp only
    rw [get_enable_ok_one s r rest _ hlen h3]
    simp

theorem set_enable_mismatch (flag : Bool) (s : Ctl) (r : List ℕ)
    (rest : List (List ℕ)) (tx : List ℕ) (hlen : r.length ≤ 6)
    (h3 : r[3]? = some (if flag then 2 else 1)) :
    (_set_enable flag s ⟨r :: rest, [], tx⟩).1 =
      Except.error Err.assertionError := by
  cases flag
  · simp only [Bool.false_eq_true, if_false] at h3 ⊢
    unfold _set_enable
    simp only [Bool.false_eq_true, if_false]
    rw [send_none_ok s set_enable_false_cmd ⟨r :: rest, [], tx⟩ rfl]
    dsimp only
    rw [get_enable_ok_one s r rest _ hlen h3]
    simp
  · simp only [if_true] at h3 ⊢
    unfold _set_enable
    simp only [if_true]
    rw [send_none_ok s set_enable_true_cmd ⟨r :: rest, [], tx⟩ rfl]
    dsimp only
    rw [get_enable_ok_two s r rest _ hlen h3]
    simp

theorem home_ok (s : Ctl) (r : List ℕ) (rest : List (List ℕ)) (tx : List ℕ)
    (hlen : r.length ≤ 6) :
    _home s ⟨r :: rest, [], tx⟩ =
      (Except.ok (), s, ⟨rest, [], tx ++ home_cmd⟩) := by
  unfold _home
  rw [send_some_ok s home_cmd 6 r rest tx (by norm_num) hlen]

theorem get_position_ok (s : Ctl) (r : List ℕ) (rest : List (List ℕ))
    (tx : List ℕ) (hlen : r.length ≤ 12) :
    get_position_mm s ⟨r :: rest, [], tx⟩ =
      (Except.ok ((bytes_to_nat_le ((r.drop 8).take 4) : ℚ) / EncCnt_per_mm
          - offset_mm),
       { s with
           ch_id_bytes := some ((r.drop 6).take 2),
           position_mm := some ((bytes_to_nat_le ((r.drop 8).take 4) : ℚ)
             / EncCnt_per_mm - offset_mm) },
       ⟨rest, [], tx ++ get_pos_cmd⟩) := by
  unfold get_position_mm
  rw [send_some_ok s get_pos_cmd 12 r rest tx (by norm_num) hlen]

theorem finish_move_idle (s : Ctl) (p : Port) (h : s.moving = false) :
    _finish_move s p = (Except.ok (), s, p) := by
  unfold _finish_move
  simp [h]

theorem finish_move_moving (s : Ctl) (p : Port) (h : s.moving = true) :
    _finish_move s p =
      (Except.ok (), { s with moving := false }, (p.read 20).2) := by
  unfold _finish_move
  simp [h]

theorem move_tail_ok_noblock (cmd : List ℕ) (s : Ctl) (p : Port) (pos : ℚ)
    (hpos : s.position_mm = some pos)
    (h1 : position_min_mm - range_tol_mm ≤ pos)
    (h2 : pos ≤ position_max_mm + range_tol_mm) (hrx : p.rx = []) :
    move_tail cmd false s p =
      (Except.ok (), { s with moving := true },
       { p with tx := p.tx ++ cmd }) := by
  unfold move_tail
  rw [hpos]
  dsimp only
  rw [if_pos h1, if_pos h2, send_none_ok s cmd p hrx]
  simp [hpos]

theorem move_tail_ok_block (cmd : List ℕ) (s : Ctl) (p : Port) (pos : ℚ)
    (hpos : s.position_mm = some pos)
    (h1 : position_min_mm - range_tol_mm ≤ pos)
    (h2 : pos ≤ position_max_mm + range_tol_mm) (hrx : p.rx = []) :
    move_tail cmd true s p =
      (Except.ok (), { s with moving := false },
       (({ p with tx := p.tx ++ cmd } : Port).read 20).2) := by
  unfold move_tail
  rw [hpos]
  dsimp only
  rw [if_pos h1, if_pos h2, send_none_ok s cmd p hrx]
  dsimp only
  rw [finish_move_moving _ _ rfl]
  simp [hpos]

theorem move_tail_reject (cmd : List ℕ) (block : Bool) (s : Ctl) (p : Port)
    (pos : ℚ) (hpos : s.position_mm = some pos)
    (h : pos < position_min_mm - range_tol_mm ∨
      position_max_mm + range_tol_mm < pos) :
    move_tail cmd block s p = (Except.error Err.assertionError, s, p) := by
  unfold move_tail
  rw [hpos]
  dsimp only
  rcases h with h | h
  · rw [if_neg (not_le.2 h)]
  · have h1 : position_min_mm - range_tol_mm ≤ pos := by
      refine le_of_lt (lt_of_le_of_lt ?_ h)
      norm_num [position_min_mm, position_max_mm, range_tol_mm]
    rw [if_pos h1, if_neg (not_le.2 h)]

/-! ### move_mm characterization lemmas -/

theorem move_mm_abs_char (m : ℚ) (block : Bool) (s : Ctl) (p : Port)
    (ch : List ℕ) (hmov : s.moving = false) (hch : s.ch_id_bytes = some ch)
    (hc1 : -(2 ^ 31) ≤ round_half_even (m * EncCnt_per_mm) + offset_counts)
    (hc2 : round_half_even (m * EncCnt_per_mm) + offset_counts < 2 ^ 31) :
    move_mm m false block s p =
      move_tail ([83, 4, 6, 0] ++ [208, 1] ++ ch ++
          le4_signed (round_half_even (m * EncCnt_per_mm) + offset_counts))
        block { s with position_mm := some (legalize_mm m) } p := by
  unfold move_mm
  dsimp only
  rw [to_bytes_le_signed_4 _ hc1 hc2]
  simp [hmov, hch, legalize_mm]

theorem move_mm_rel_char (m : ℚ) (block : Bool) (s : Ctl) (p : Port)
    (pos : ℚ) (ch : List ℕ) (hmov : s.moving = false)
    (hpos : s.position_mm = some pos) (hch : s.ch_id_bytes = some ch)
    (hc1 : -(2 ^ 31) ≤ round_half_even (m * EncCnt_per_mm))
    (hc2 : round_half_even (m * EncCnt_per_mm) < 2 ^ 31) :
    move_mm m true block s p =
      move_tail ([72, 4, 6, 0] ++ [208, 1] ++ ch ++
          le4_signed (round_half_even (m * EncCnt_per_mm)))
        block { s with position_mm := some (pos + legalize_mm m) } p := by
  unfold move_mm
  dsimp only
  rw [to_bytes_le_signed_4 _ hc1 hc2]
  simp [hmov, hpos, hch, legalize_mm]

theorem move_mm_abs_no_channel (m : ℚ) (block : Bool) (s : Ctl) (p : Port)
    (hmov : s.moving = false) (hch : s.ch_id_bytes = none)
    (hc1 : -(2 ^ 31) ≤ round_half_even (m * EncCnt_per_mm) + offset_counts)
    (hc2 : round_half_even (m * EncCnt_per_mm) + offset_counts < 2 ^ 31) :
    move_mm m false block s p =
      (Except.error Err.attributeError,
       { s with position_mm := some (legalize_mm m) }, p) := by
  unfold move_mm
  dsimp only
  rw [to_bytes_le_signed_4 _ hc1 hc2]
  simp [hmov, hch, legalize_mm]

theorem move_mm_rel_no_position (m : ℚ) (block : Bool) (s : Ctl) (p : Port)
    (hmov : s.moving = false) (hpos : s.position_mm = none) :
    move_mm m true block s p = (Except.error Err.attributeError, s, p) := by
  unfold move_mm
  dsimp only
  simp [hmov, hpos]

theorem move_mm_drain (m : ℚ) (relative block : Bool) (s : Ctl) (p : Port)
    (hmov : s.moving = true) :
    move_mm m relative block s p =
      move_mm m relative block { s with moving := false } ((p.read 20).2) := by
  unfold move_mm
  rw [hmov, finish_move_moving s p hmov]
  simp

theorem move_mm_noblock_moving (m : ℚ) (relative : Bool) (s : Ctl) (p : Port)
    (r : Unit) (s' : Ctl) (p' : Port)
    (h : move_mm m relative false s p = (Except.ok r, s', p')) :
    s'.moving = true := by
  unfold move_mm move_tail _finish_move at h
  repeat' (first | split at h | simp only [Prod.mk.injEq] at h)
  all_goals try simp_all
  all_goals
    obtain ⟨h1, h2⟩ := h
  all_goals
    subst h1
  all_goals rfl

theorem set_enable_success_enable (flag : Bool) (s : Ctl) (p : Port)
    (r : Unit) (s' : Ctl) (p' : Port)
    (h : _set_enable flag s p = (Except.ok r, s', p')) :
    s'.enable = flag := by
  unfold _set_enable _get_enable at h
  dsimp only at h
  rcases hs : _send (if flag then set_enable_true_cmd else set_enable_false_cmd)
      none s p with ⟨res, s1, p1⟩
  rw [hs] at h
  rcases res with e | a
  · simp at h
  · dsimp only at h
    rcases hg : _send get_enable_cmd (some 6) s1 p1 with ⟨res2, s2, p2⟩
    rw [hg] at h
    rcases res2 with e | r2
    · simp at h
    · rcases r2 with _ | r3
      · simp at h
      · dsimp only at h
        rcases h3 : r3.get? 3 with _ | b
        · rw [h3] at h
          simp at h
        · rw [h3] at h
          dsimp only at h
          by_cases hb1 : b = 1
          · subst hb1
            rw [if_pos rfl] at h
            dsimp only at h
            cases flag
            · simp at h
            · rw [if_pos rfl] at h
              simp only [Prod.mk.injEq, Except.ok.injEq] at h
              obtain ⟨h0, h1, h2⟩ := h
              subst h1
              rfl
          · rw [if_neg hb1] at h
            by_cases hb2 : b = 2
            · subst hb2
              rw [if_pos rfl] at h
              dsimp only at h
              cases flag
              · rw [if_pos rfl] at h
                simp only [Prod.mk.injEq, Except.ok.injEq] at h
                obtain ⟨h0, h1, h2⟩ := h
                subst h1
                rfl
              · simp at h
            · rw [if_neg hb2] at h
              simp at h

/-! ### Startup sequence lemmas -/

theorem round_zero : round_half_even ((0 : ℚ) * EncCnt_per_mm) = 0 := by
  have h : (0 : ℚ) * EncCnt_per_mm = ((0 : ℤ) : ℚ) := by norm_num
  rw [h, round_half_even_intCast]

theorem legalize_zero : legalize_mm 0 = 0 := by
  rw [legalize_mm, round_zero]
  norm_num

/-- The full transmitted byte stream of a successful construction, in
order: info query, set-enable, enable query, home, position query, and
the absolute move to zero carrying the channel id from the position
reply and a position field of `offset_counts`. -/
theorem init_success (s : Ctl) (tx : List ℕ)
    (i_r e_r h_r pos_r f_r : List ℕ)
    (hi_len : i_r.length ≤ 90)
    (hi_model : (i_r.drop 10).take 8 = KBD101_bytes)
    (hi_fw : bytes_to_nat_le ((i_r.drop 20).take 4) = 131080)
    (he_len : e_r.length ≤ 6) (he3 : e_r[3]? = some 1)
    (hh_len : h_r.length ≤ 6)
    (hp_len : pos_r.length ≤ 12)
    (hf_len : f_r.length ≤ 20) :
    init_controller s ⟨[i_r, e_r, h_r, pos_r, f_r], [], tx⟩ =
      (Except.ok (),
       { model_number := KBD101_bytes,
         type := bytes_to_nat_le ((i_r.drop 18).take 2),
         serial_number := bytes_to_nat_le ((i_r.drop 6).take 4),
         firmware_v := 131080,
         hardware_v := bytes_to_nat_le ((i_r.drop 84).take 2),
         enable := true,
         position_mm := some 0,
         ch_id_bytes := some ((pos_r.drop 6).take 2),
         moving := false },
       ⟨[], [],
        tx ++ get_info_cmd ++ set_enable_true_cmd ++ get_enable_cmd ++
          home_cmd ++ get_pos_cmd ++
          ([83, 4, 6, 0] ++ [208, 1] ++ (pos_r.drop 6).take 2 ++
            le4_signed offset_counts)⟩) := by
  have hascii : ascii_ok ((i_r.drop 10).take 8) = true := by
    rw [hi_model]
    decide
  unfold init_controller
  rw [get_info_ok s i_r [e_r, h_r, pos_r, f_r] tx hi_len hascii]
  dsimp only
  rw [hi_model, hi_fw, if_pos rfl, if_pos rfl]
  rw [set_enable_ok true _ e_r [h_r, pos_r, f_r] _ he_len (by simpa using he3)]
  dsimp only
  rw [home_ok _ h_r [pos_r, f_r] _ hh_len]
  dsimp only
  rw [get_position_ok _ pos_r [f_r] _ hp_len]
  dsimp only
  rw [move_mm_abs_char 0 true _ _ ((pos_r.drop 6).take 2) rfl rfl
      (by rw [round_zero, offset_counts_eq]; norm_num)
      (by rw [round_zero, offset_counts_eq]; norm_num)]
  rw [move_tail_ok_block _ _ _ (legalize_mm 0) rfl
      (by rw [legalize_zero]; norm_num [position_min_mm, range_tol_mm])
      (by rw [legalize_zero]; norm_num [position_max_mm, range_tol_mm]) rfl]
  dsimp only
  rw [read_burst_over 20 f_r [] [] _ rfl (by norm_num)]
  dsimp only
  rw [round_zero]
  simp [legalize_zero, List.drop_eq_nil_of_le hf_len, List.append_assoc]

/-- Identity validation: a model-number mismatch aborts construction
right after the info exchange; only the info query has been written. -/
theorem init_bad_model (s : Ctl) (tx i_r : List ℕ) (rest : List (List ℕ))
    (hi_len : i_r.length ≤ 90)
    (hascii : ascii_ok ((i_r.drop 10).take 8) = true)
    (hmodel : (i_r.drop 10).take 8 ≠ KBD101_bytes) :
    init_controller s ⟨i_r :: rest, [], tx⟩ =
      (Except.error Err.assertionError,
       { s with
           model_number := (i_r.drop 10).take 8,
           type := bytes_to_nat_le ((i_r.drop 18).take 2),
           serial_number := bytes_to_nat_le ((i_r.drop 6).take 4),
           firmware_v := bytes_to_nat_le ((i_r.drop 20).take 4),
           hardware_v := bytes_to_nat_le ((i_r.drop 84).take 2) },
       ⟨rest, [], tx ++ get_info_cmd⟩) := by
  unfold init_controller
  rw [get_info_ok s i_r rest tx hi_len hascii]
  dsimp only
  rw [if_neg hmodel]

/-- Identity validation: a firmware-version mismatch aborts construction
right after the info exchange; only the info query has been written. -/
theorem init_bad_firmware (s : Ctl) (tx i_r : List ℕ) (rest : List (List ℕ))
    (hi_len : i_r.length ≤ 90)
    (hi_model : (i_r.drop 10).take 8 = KBD101_bytes)
    (hfw : bytes_to_nat_le ((i_r.drop 20).take 4) ≠ 131080) :
    init_controller s ⟨i_r :: rest, [], tx⟩ =
      (Except.error Err.assertionError,
       { s with
           model_number := (i_r.drop 10).take 8,
           type := bytes_to_nat_le ((i_r.drop 18).take 2),
           serial_number := bytes_to_nat_le ((i_r.drop 6).take 4),
           firmware_v := bytes_to_nat_le ((i_r.drop 20).take 4),
           hardware_v := bytes_to_nat_le ((i_r.drop 84).take 2) },
       ⟨rest, [], tx ++ get_info_cmd⟩) := by
  have hascii : ascii_ok ((i_r.drop 10).take 8) = true := by
    rw [hi_model]
    decide
  unfold init_controller
  rw [get_info_ok s i_r rest tx hi_len hascii]
  dsimp only
  rw [hi_model, if_pos rfl, if_neg hfw]

theorem round_mul_enc (m : ℚ) (c : ℤ) (h : m * EncCnt_per_mm = (c : ℚ)) :
    round_half_even (m * EncCnt_per_mm) = c := by
  rw [h, round_half_even_intCast]

theorem legalize_of_mul (m : ℚ) (c : ℤ) (h : m * EncCnt_per_mm = (c : ℚ)) :
    legalize_mm m = (c : ℚ) / EncCnt_per_mm := by
  rw [legalize_mm, round_mul_enc m c h]

/-! ### Claim C1 -/

/-- C1 counterexample: the claim asserts a rejected move leaves the
session state unchanged.  From cached position 50 mm, a relative move of
60 mm is rejected by the range check (110 > 100.1), yet the cached
position has already been overwritten with the rejected target 110 mm. -/
theorem C1_counterexample :
    move_mm 60 true true sample_ctl empty_port =
      (Except.error Err.assertionError,
       { sample_ctl with position_mm := some 110 }, empty_port) ∧
    ({ sample_ctl with position_mm := some 110 } : Ctl).position_mm ≠
      sample_ctl.position_mm := by
  constructor
  · rw [move_mm_rel_char 60 true sample_ctl empty_port 50 [1, 0] rfl rfl rfl
        (by rw [round_mul_enc 60 120000 (by norm_num [EncCnt_per_mm])]
            norm_num)
        (by rw [round_mul_enc 60 120000 (by norm_num [EncCnt_per_mm])]
            norm_num)]
    rw [move_tail_reject _ _ _ _ (50 + legalize_mm 60) rfl
        (Or.inr (by
          rw [legalize_of_mul 60 120000 (by norm_num [EncCnt_per_mm])]
          norm_num [position_max_mm, range_tol_mm, EncCnt_per_mm]))]
    have h : (50 : ℚ) + legalize_mm 60 = 110 := by
      rw [legalize_of_mul 60 120000 (by norm_num [EncCnt_per_mm])]
      norm_num [EncCnt_per_mm]
    rw [h]
  · simp [sample_ctl]

/-- C1 (amended): every move's resulting absolute position is checked
against `[position_min_mm - range_tol_mm, position_max_mm + range_tol_mm]`
after legalization and before any byte is written: (a) an absolute move to
exactly `position_max_mm + range_tol_mm` succeeds; (b) one encoder count
beyond fails fatally with the transport completely untouched; (c) in
general a rejected move (either mode) writes nothing and leaves the moving
flag and channel id unchanged, but — contrary to the original claim — the
cached position has already been overwritten with the rejected target, so
only a retry that does not rely on the stale cached position (an absolute
target) behaves as if the rejected move never happened. -/
theorem C1_range_check :
    (∀ (s : Ctl) (p : Port) (ch : List ℕ),
      s.moving = false → s.ch_id_bytes = some ch → p.rx = [] →
      move_mm (position_max_mm + range_tol_mm) false false s p =
        (Except.ok (),
         { s with position_mm := some (position_max_mm + range_tol_mm),
                  moving := true },
         { p with tx := p.tx ++ ([83, 4, 6, 0] ++ [208, 1] ++ ch ++
             le4_signed 200300) })) ∧
    (∀ (s : Ctl) (p : Port) (ch : List ℕ) (block : Bool),
      s.moving = false → s.ch_id_bytes = some ch →
      move_mm (position_max_mm + range_tol_mm + 1 / EncCnt_per_mm) false
          block s p =
        (Except.error Err.assertionError,
         { s with position_mm := some (position_max_mm + range_tol_mm + 1 / EncCnt_per_mm) },
         p)) ∧
    (∀ (m : ℚ) (relative block : Bool) (s : Ctl) (p : Port) (pos : ℚ)
        (ch : List ℕ),
      s.moving = false → s.position_mm = some pos → s.ch_id_bytes = some ch →
      -(2 ^ 31) ≤ round_half_even (m * EncCnt_per_mm) +
        (if relative then 0 else offset_counts) →
      round_half_even (m * EncCnt_per_mm) +
        (if relative then 0 else offset_counts) < 2 ^ 31 →
      ((if relative then pos + legalize_mm m else legalize_mm m) <
          position_min_mm - range_tol_mm ∨
        position_max_mm + range_tol_mm <
          (if relative then pos + legalize_mm m else legalize_mm m)) →
      move_mm m relative block s p =
        (Except.error Err.assertionError,
         { s with position_mm := some (if relative then pos + legalize_mm m else legalize_mm m) },
         p)) := by
  have hmax : (position_max_mm + range_tol_mm) * EncCnt_per_mm =
      ((200200 : ℤ) : ℚ) := by
    norm_num [position_max_mm, range_tol_mm, EncCnt_per_mm]
  refine ⟨?_, ?_, ?_⟩
  · intro s p ch hmov hch hrx
    rw [move_mm_abs_char _ false s p ch hmov hch
        (by rw [round_mul_enc _ 200200 hmax, offset_counts_eq]; norm_num)
        (by rw [round_mul_enc _ 200200 hmax, offset_counts_eq]; norm_num)]
    rw [move_tail_ok_noblock _ _ _ (legalize_mm (position_max_mm + range_tol_mm))
        rfl
        (by rw [legalize_of_mul _ 200200 hmax]
            norm_num [position_min_mm, range_tol_mm, EncCnt_per_mm])
        (by rw [legalize_of_mul _ 200200 hmax]
            norm_num [position_max_mm, range_tol_mm, EncCnt_per_mm]) hrx]
    have h1 : legalize_mm (position_max_mm + range_tol_mm) =
        position_max_mm + range_tol_mm := by
      rw [legalize_of_mul _ 200200 hmax]
      norm_num [position_max_mm, range_tol_mm, EncCnt_per_mm]
    have h2 : round_half_even ((position_max_mm + range_tol_mm) *
        EncCnt_per_mm) + offset_counts = 200300 := by
      rw [round_mul_enc _ 200200 hmax, offset_counts_eq]
      norm_num
    rw [h1, h2]
  · intro s p ch block hmov hch
    have hmax1 : (position_max_mm + range_tol_mm + 1 / EncCnt_per_mm) *
        EncCnt_per_mm = ((200201 : ℤ) : ℚ) := by
      norm_num [position_max_mm, range_tol_mm, EncCnt_per_mm]
    rw [move_mm_abs_char _ block s p ch hmov hch
        (by rw [round_mul_enc _ 200201 hmax1, offset_counts_eq]; norm_num)
        (by rw [round_mul_enc _ 200201 hmax1, offset_counts_eq]; norm_num)]
    rw [move_tail_reject _ _ _ _
        (legalize_mm (position_max_mm + range_tol_mm + 1 / EncCnt_per_mm)) rfl
        (Or.inr (by
          rw [legalize_of_mul _ 200201 hmax1]
          norm_num [position_max_mm, range_tol_mm, EncCnt_per_mm]))]
    have h1 : legalize_mm (position_max_mm + range_tol_mm + 1 / EncCnt_per_mm)
        = position_max_mm + range_tol_mm + 1 / EncCnt_per_mm := by
      rw [legalize_of_mul _ 200201 hmax1]
      norm_num [position_max_mm, range_tol_mm, EncCnt_per_mm]
    rw [h1]
  · intro m relative block s p pos ch hmov hpos hch hc1 hc2 hrange
    cases relative
    · simp only [Bool.false_eq_true, if_false] at hc1 hc2 hrange ⊢
      rw [move_mm_abs_char m block s p ch hmov hch hc1 hc2]
      exact move_tail_reject _ _ _ _ (legalize_mm m) rfl hrange
    · simp only [if_true] at hc1 hc2 hrange ⊢
      rw [add_zero] at hc1 hc2
      rw [move_mm_rel_char m block s p pos ch hmov hpos hch hc1 hc2]
      exact move_tail_reject _ _ _ _ (pos + legalize_mm m) rfl hrange

/-- Witness for C1_range_check: concrete boundary move, one-count-beyond
move, and far-out-of-range move from the sample session. -/
theorem C1_range_check_witness :
    (move_mm (position_max_mm + range_tol_mm) false false sample_ctl
        empty_port =
      (Except.ok (),
       { sample_ctl with position_mm := some (position_max_mm + range_tol_mm),
                         moving := true },
       { empty_port with tx := empty_port.tx ++ ([83, 4, 6, 0] ++ [208, 1] ++
           [1, 0] ++ le4_signed 200300) })) ∧
    (move_mm (position_max_mm + range_tol_mm + 1 / EncCnt_per_mm) false true
        sample_ctl empty_port =
      (Except.error Err.assertionError,
       { sample_ctl with position_mm := some (position_max_mm + range_tol_mm + 1 / EncCnt_per_mm) },
       empty_port)) ∧
    (move_mm 200 false false sample_ctl empty_port =
      (Except.error Err.assertionError,
       { sample_ctl with position_mm := some (if false then 50 + legalize_mm 200 else legalize_mm 200) },
       empty_port)) := by
  refine ⟨C1_range_check.1 sample_ctl empty_port [1, 0] rfl rfl rfl,
          C1_range_check.2.1 sample_ctl empty_port [1, 0] true rfl rfl,
          C1_range_check.2.2 200 false false sample_ctl empty_port 50 [1, 0]
            rfl rfl rfl ?_ ?_ ?_⟩
  · simp only [Bool.false_eq_true, if_false]
    rw [round_mul_enc 200 400000 (by norm_num [EncCnt_per_mm]),
        offset_counts_eq]
    norm_num
  · simp only [Bool.false_eq_true, if_false]
    rw [round_mul_enc 200 400000 (by norm_num [EncCnt_per_mm]),
        offset_counts_eq]
    norm_num
  · refine Or.inr ?_
    simp only [Bool.false_eq_true, if_false]
    rw [legalize_of_mul 200 400000 (by norm_num [EncCnt_per_mm])]
    norm_num [position_max_mm, range_tol_mm, EncCnt_per_mm]

/-! ### Claim C2 -/

/-- C2: the state machine never has two outstanding moves: a successful
non-blocking move leaves the state Moving; finishing while Idle is a
no-op (no state change, no transport read); finishing while Moving
consumes the 20-byte acknowledgment and returns to Idle; and a move
issued while Moving first drains the pending acknowledgment, behaving
exactly like the same move issued from the drained Idle state. -/
theorem C2_single_outstanding_move :
    (∀ (m : ℚ) (relative : Bool) (s : Ctl) (p : Port) (r : Unit) (s' : Ctl)
        (p' : Port),
      move_mm m relative false s p = (Except.ok r, s', p') →
      s'.moving = true) ∧
    (∀ (s : Ctl) (p : Port), s.moving = false →
      _finish_move s p = (Except.ok (), s, p)) ∧
    (∀ (s : Ctl) (p : Port), s.moving = true →
      _finish_move s p =
        (Except.ok (), { s with moving := false }, (p.read 20).2)) ∧
    (∀ (m : ℚ) (relative block : Bool) (s : Ctl) (p : Port),
      s.moving = true →
      move_mm m relative block s p =
        move_mm m relative block { s with moving := false }
          ((p.read 20).2)) :=
  ⟨move_mm_noblock_moving, finish_move_idle, finish_move_moving,
   move_mm_drain⟩

/-- Witness for C2_single_outstanding_move from the sample session. -/
theorem C2_single_outstanding_move_witness :
    ({ sample_ctl with position_mm := some (legalize_mm 10), moving := true }
        : Ctl).moving = true ∧
    _finish_move sample_ctl empty_port =
      (Except.ok (), sample_ctl, empty_port) ∧
    _finish_move { sample_ctl with moving := true } empty_port =
      (Except.ok (), { { sample_ctl with moving := true } with moving := false },
       (empty_port.read 20).2) ∧
    move_mm 5 true true { sample_ctl with moving := true } empty_port =
      move_mm 5 true true
        { { sample_ctl with moving := true } with moving := false }
        ((empty_port.read 20).2) := by
  have hmove : move_mm 10 false false sample_ctl empty_port =
      (Except.ok (),
       { sample_ctl with position_mm := some (legalize_mm 10), moving := true },
       { empty_port with tx := empty_port.tx ++ ([83, 4, 6, 0] ++ [208, 1] ++
           [1, 0] ++
           le4_signed (round_half_even (10 * EncCnt_per_mm) + offset_counts)) })
      := by
    rw [move_mm_abs_char 10 false sample_ctl empty_port [1, 0] rfl rfl
        (by rw [round_mul_enc 10 20000 (by norm_num [EncCnt_per_mm]),
              offset_counts_eq]
            norm_num)
        (by rw [round_mul_enc 10 20000 (by norm_num [EncCnt_per_mm]),
              offset_counts_eq]
            norm_num)]
    rw [move_tail_ok_noblock _ _ _ (legalize_mm 10) rfl
        (by rw [legalize_of_mul 10 20000 (by norm_num [EncCnt_per_mm])]
            norm_num [position_min_mm, range_tol_mm, EncCnt_per_mm])
        (by rw [legalize_of_mul 10 20000 (by norm_num [EncCnt_per_mm])]
            norm_num [position_max_mm, range_tol_mm, EncCnt_per_mm]) rfl]
  exact ⟨C2_single_outstanding_move.1 10 false sample_ctl empty_port () _ _
           hmove,
         C2_single_outstanding_move.2.1 sample_ctl empty_port rfl,
         C2_single_outstanding_move.2.2.1 _ empty_port rfl,
         C2_single_outstanding_move.2.2.2 5 true true _ empty_port rfl⟩

/-! ### Claim C3 -/

/-- C3: a successful relative move transmits the legalized signed count
delta with no offset; a successful absolute move transmits
`counts + offset_counts`; a relative move of 0.0 mm carries position
field `[0,0,0,0]`, and an absolute move to 0.0 mm carries exactly the
little-endian image of `offset_counts` — the zero-offset constant enters
only the absolute encoding. -/
theorem C3_move_encoding :
    (∀ (m : ℚ) (s : Ctl) (p : Port) (pos : ℚ) (ch : List ℕ),
      s.moving = false → s.position_mm = some pos → s.ch_id_bytes = some ch →
      p.rx = [] →
      -(2 ^ 31) ≤ round_half_even (m * EncCnt_per_mm) →
      round_half_even (m * EncCnt_per_mm) < 2 ^ 31 →
      position_min_mm - range_tol_mm ≤ pos + legalize_mm m →
      pos + legalize_mm m ≤ position_max_mm + range_tol_mm →
      move_mm m true false s p =
        (Except.ok (),
         { s with position_mm := some (pos + legalize_mm m), moving := true },
         { p with tx := p.tx ++ ([72, 4, 6, 0] ++ [208, 1] ++ ch ++
             le4_signed (round_half_even (m * EncCnt_per_mm))) })) ∧
    (∀ (m : ℚ) (s : Ctl) (p : Port) (ch : List ℕ),
      s.moving = false → s.ch_id_bytes = some ch → p.rx = [] →
      -(2 ^ 31) ≤ round_half_even (m * EncCnt_per_mm) + offset_counts →
      round_half_even (m * EncCnt_per_mm) + offset_counts < 2 ^ 31 →
      position_min_mm - range_tol_mm ≤ legalize_mm m →
      legalize_mm m ≤ position_max_mm + range_tol_mm →
      move_mm m false false s p =
        (Except.ok (),
         { s with position_mm := some (legalize_mm m), moving := true },
         { p with tx := p.tx ++ ([83, 4, 6, 0] ++ [208, 1] ++ ch ++
             le4_signed (round_half_even (m * EncCnt_per_mm) +
               offset_counts)) })) ∧
    le4_signed (round_half_even ((0 : ℚ) * EncCnt_per_mm)) = [0, 0, 0, 0] ∧
    le4_signed (round_half_even ((0 : ℚ) * EncCnt_per_mm) + offset_counts) =
      [100, 0, 0, 0] := by
  refine ⟨?_, ?_, ?_, ?_⟩
  · intro m s p pos ch hmov hpos hch hrx hc1 hc2 h1 h2
    rw [move_mm_rel_char m false s p pos ch hmov hpos hch hc1 hc2]
    rw [move_tail_ok_noblock _ _ _ (pos + legalize_mm m) rfl h1 h2 hrx]
  · intro m s p ch hmov hch hrx hc1 hc2 h1 h2
    rw [move_mm_abs_char m false s p ch hmov hch hc1 hc2]
    rw [move_tail_ok_noblock _ _ _ (legalize_mm m) rfl h1 h2 hrx]
  · rw [round_zero]
    decide
  · rw [round_zero, zero_add, offset_counts_eq]
    decide

/-- Witness for C3_move_encoding: relative and absolute moves of 0.0 mm
from the sample session. -/
theorem C3_move_encoding_witness :
    (move_mm 0 true false sample_ctl empty_port =
      (Except.ok (),
       { sample_ctl with position_mm := some (50 + legalize_mm 0),
                         moving := true },
       { empty_port with tx := empty_port.tx ++ ([72, 4, 6, 0] ++ [208, 1] ++
           [1, 0] ++ le4_signed (round_half_even (0 * EncCnt_per_mm))) })) ∧
    (move_mm 0 false false sample_ctl empty_port =
      (Except.ok (),
       { sample_ctl with position_mm := some (legalize_mm 0), moving := true },
       { empty_port with tx := empty_port.tx ++ ([83, 4, 6, 0] ++ [208, 1] ++
           [1, 0] ++ le4_signed (round_half_even (0 * EncCnt_per_mm) +
             offset_counts)) })) ∧
    le4_signed (round_half_even ((0 : ℚ) * EncCnt_per_mm)) = [0, 0, 0, 0] ∧
    le4_signed (round_half_even ((0 : ℚ) * EncCnt_per_mm) + offset_counts) =
      [100, 0, 0, 0] := by
  refine ⟨C3_move_encoding.1 0 sample_ctl empty_port 50 [1, 0] rfl rfl rfl rfl
            (by rw [round_zero]; norm_num) (by rw [round_zero]; norm_num)
            (by rw [legalize_zero]
                norm_num [position_min_mm, range_tol_mm])
            (by rw [legalize_zero]
                norm_num [position_max_mm, range_tol_mm]),
          C3_move_encoding.2.1 0 sample_ctl empty_port [1, 0] rfl rfl rfl
            (by rw [round_zero, offset_counts_eq]; norm_num)
            (by rw [round_zero, offset_counts_eq]; norm_num)
            (by rw [legalize_zero]
                norm_num [position_min_mm, range_tol_mm])
            (by rw [legalize_zero]
                norm_num [position_max_mm, range_tol_mm]),
          C3_move_encoding.2.2.1, C3_move_encoding.2.2.2⟩

/-! ### Claim C4 -/

/-- C4 counterexample: the claim says the reply's position counts field
is decoded as a signed 4-byte little-endian integer.  On a reply whose
counts bytes are `FF FF FF FF` the code returns the unsigned reading
4294967295, not the signed reading −1: the two decodings disagree on
this reply, so the decode is not signed. -/
theorem C4_counterexample :
    (get_position_mm sample_ctl ⟨[pos_reply_ffff], [], []⟩).1 =
      Except.ok ((4294967295 : ℚ) / EncCnt_per_mm - offset_mm) ∧
    bytes_to_int_le_signed [255, 255, 255, 255] = -1 ∧
    ((4294967295 : ℚ) / EncCnt_per_mm - offset_mm) ≠
      ((bytes_to_int_le_signed [255, 255, 255, 255] : ℚ) / EncCnt_per_mm -
        offset_mm) := by
  have hsig : bytes_to_int_le_signed [255, 255, 255, 255] = -1 := by decide
  refine ⟨?_, hsig, ?_⟩
  · rw [get_position_ok sample_ctl pos_reply_ffff [] []
        (by norm_num [pos_reply_ffff])]
    have hb : bytes_to_nat_le ((pos_reply_ffff.drop 8).take 4) =
        4294967295 := by decide
    rw [hb]
    norm_num
  · rw [hsig]
    norm_num [EncCnt_per_mm, offset_mm]

/-- C4 (amended): the position counts field of a 12-byte position reply
is decoded as a 4-byte little-endian UNSIGNED integer (the source calls
`int.from_bytes` without `signed=True`); the returned and cached
position is `counts / EncCnt_per_mm - offset_mm`, and the 2-byte channel
id `reply[6:8]` is cached. -/
theorem C4_position_decode :
    ∀ (s : Ctl) (r : List ℕ) (rest : List (List ℕ)) (tx : List ℕ),
      r.length = 12 →
      get_position_mm s ⟨r :: rest, [], tx⟩ =
        (Except.ok ((bytes_to_nat_le ((r.drop 8).take 4) : ℚ) /
            EncCnt_per_mm - offset_mm),
         { s with
             ch_id_bytes := some ((r.drop 6).take 2),
             position_mm := some ((bytes_to_nat_le ((r.drop 8).take 4) : ℚ) /
               EncCnt_per_mm - offset_mm) },
         ⟨rest, [], tx ++ get_pos_cmd⟩) ∧
      ((r.drop 6).take 2).length = 2 := by
  intro s r rest tx hlen
  refine ⟨get_position_ok s r rest tx (le_of_eq hlen), ?_⟩
  simp [List.length_take, List.length_drop, hlen]

/-- Witness for C4_position_decode at the all-ones counts reply. -/
theorem C4_position_decode_witness :
    get_position_mm sample_ctl ⟨[pos_reply_ffff], [], []⟩ =
      (Except.ok ((bytes_to_nat_le ((pos_reply_ffff.drop 8).take 4) : ℚ) /
          EncCnt_per_mm - offset_mm),
       { sample_ctl with
           ch_id_bytes := some ((pos_reply_ffff.drop 6).take 2),
           position_mm :=
             some ((bytes_to_nat_le ((pos_reply_ffff.drop 8).take 4) : ℚ) /
               EncCnt_per_mm - offset_mm) },
       ⟨[], [], [] ++ get_pos_cmd⟩) ∧
    ((pos_reply_ffff.drop 6).take 2).length = 2 :=
  C4_position_decode sample_ctl pos_reply_ffff [] [] (by decide)

/-! ### Claim C5 -/

/-- C5 counterexample: the claim says a reply of unexpected length makes
the session fail fatally for every exchange.  A 6-byte reply to the
position query (expected length 12) is instead decoded silently: the
call succeeds, returns the guessed position −0.05 mm (zero counts from
the empty slice) and caches an empty channel id. -/
theorem C5_counterexample :
    pos_reply_short.length = 6 ∧
    (get_position_mm sample_ctl ⟨[pos_reply_short], [], []⟩).1 =
      Except.ok (-(1 / 20) : ℚ) ∧
    (get_position_mm sample_ctl
        ⟨[pos_reply_short], [], []⟩).2.1.ch_id_bytes = some [] := by
  have h := get_position_ok sample_ctl pos_reply_short [] [] (by decide)
  have hb : bytes_to_nat_le ((pos_reply_short.drop 8).take 4) = 0 := by decide
  have hch : (pos_reply_short.drop 6).take 2 = ([] : List ℕ) := by decide
  refine ⟨rfl, ?_, ?_⟩
  · rw [h, hb, hch]
    norm_num [EncCnt_per_mm, offset_mm]
  · rw [h, hch]

/-- C5 (amended): the session fails fatally on leftover unread bytes
(a reply longer than the expected count, for any exchange) and on an
enable reply that is too short to hold the status byte or whose status
byte is outside {1,2}; but a position-query reply SHORTER than the
expected 12 bytes is not detected: it is decoded silently from the
truncated byte list (missing fields read as empty/zero). -/
theorem C5_protocol_errors :
    (∀ (s : Ctl) (cmd : List ℕ) (n : ℕ) (r : List ℕ) (rest : List (List ℕ))
        (tx : List ℕ),
      0 < n → n < r.length →
      (_send cmd (some n) s ⟨r :: rest, [], tx⟩).1 =
        Except.error Err.assertionError) ∧
    (∀ (s : Ctl) (r : List ℕ) (rest : List (List ℕ)) (tx : List ℕ),
      r.length ≤ 3 →
      (_get_enable s ⟨r :: rest, [], tx⟩).1 = Except.error Err.indexError) ∧
    (∀ (s : Ctl) (r : List ℕ) (rest : List (List ℕ)) (tx : List ℕ) (b : ℕ),
      r.length ≤ 6 → r[3]? = some b → b ≠ 1 → b ≠ 2 →
      (_get_enable s ⟨r :: rest, [], tx⟩).1 =
        Except.error Err.assertionError) ∧
    (∀ (s : Ctl) (r : List ℕ) (rest : List (List ℕ)) (tx : List ℕ),
      r.length ≤ 12 →
      (get_position_mm s ⟨r :: rest, [], tx⟩).1 =
        Except.ok ((bytes_to_nat_le ((r.drop 8).take 4) : ℚ) /
          EncCnt_per_mm - offset_mm)) := by
  refine ⟨?_, ?_, ?_, ?_⟩
  · intro s cmd n r rest tx hn h
    rw [send_some_leftover s cmd n r rest tx hn h]
  · intro s r rest tx hlen
    rw [get_enable_short s r rest tx hlen]
  · intro s r rest tx b hlen h3 hb1 hb2
    rw [get_enable_bad s r rest tx b hlen h3 hb1 hb2]
  · intro s r rest tx hlen
    rw [get_position_ok s r rest tx hlen]

/-- Witness for C5_protocol_errors: an over-long reply, a 3-byte enable
reply, an enable reply with status byte 9, and the short position
reply. -/
theorem C5_protocol_errors_witness :
    (_send get_enable_cmd (some 6) sample_ctl
        ⟨[[1, 2, 3, 4, 5, 6, 7]], [], []⟩).1 =
      Except.error Err.assertionError ∧
    (_get_enable sample_ctl ⟨[[17, 2, 0]], [], []⟩).1 =
      Except.error Err.indexError ∧
    (_get_enable sample_ctl ⟨[[17, 2, 0, 9, 80, 1]], [], []⟩).1 =
      Except.error Err.assertionError ∧
    (get_position_mm sample_ctl ⟨[pos_reply_short], [], []⟩).1 =
      Except.ok ((bytes_to_nat_le ((pos_reply_short.drop 8).take 4) : ℚ) /
        EncCnt_per_mm - offset_mm) :=
  ⟨C5_protocol_errors.1 sample_ctl get_enable_cmd 6 [1, 2, 3, 4, 5, 6, 7] []
     [] (by norm_num) (by norm_num),
   C5_protocol_errors.2.1 sample_ctl [17, 2, 0] [] [] (by norm_num),
   C5_protocol_errors.2.2.1 sample_ctl [17, 2, 0, 9, 80, 1] [] [] 9
     (by norm_num) (by decide) (by norm_num) (by norm_num),
   C5_protocol_errors.2.2.2 sample_ctl pos_reply_short [] [] (by decide)⟩

/-! ### Claim C6 -/

/-- C6: `_set_enable` sends the set command (no reply) followed by the
enable query; it succeeds only when the read-back state equals the
request (so after every successful call the cached enable equals the
requested flag), the getter maps status byte 1 to enabled and 2 to
disabled, and a confirmed state differing from the request is fatal. -/
theorem C6_enable_self_verified :
    (∀ (flag : Bool) (s : Ctl) (p : Port) (r : Unit) (s' : Ctl) (p' : Port),
      _set_enable flag s p = (Except.ok r, s', p') → s'.enable = flag) ∧
    (∀ (s : Ctl) (r : List ℕ) (rest : List (List ℕ)) (tx : List ℕ),
      r.length ≤ 6 → r[3]? = some 1 →
      _get_enable s ⟨r :: rest, [], tx⟩ =
        (Except.ok true, { s with enable := true },
         ⟨rest, [], tx ++ get_enable_cmd⟩)) ∧
    (∀ (s : Ctl) (r : List ℕ) (rest : List (List ℕ)) (tx : List ℕ),
      r.length ≤ 6 → r[3]? = some 2 →
      _get_enable s ⟨r :: rest, [], tx⟩ =
        (Except.ok false, { s with enable := false },
         ⟨rest, [], tx ++ get_enable_cmd⟩)) ∧
    (∀ (flag : Bool) (s : Ctl) (r : List ℕ) (rest : List (List ℕ))
        (tx : List ℕ),
      r.length ≤ 6 → r[3]? = some (if flag then 2 else 1) →
      (_set_enable flag s ⟨r :: rest, [], tx⟩).1 =
        Except.error Err.assertionError) ∧
    (∀ (flag : Bool) (s : Ctl) (r : List ℕ) (rest : List (List ℕ))
        (tx : List ℕ),
      r.length ≤ 6 → r[3]? = some (if flag then 1 else 2) →
      _set_enable flag s ⟨r :: rest, [], tx⟩ =
        (Except.ok (), { s with enable := flag },
         ⟨rest, [],
          (tx ++ (if flag then set_enable_true_cmd else set_enable_false_cmd))
            ++ get_enable_cmd⟩)) :=
  ⟨set_enable_success_enable, get_enable_ok_one, get_enable_ok_two,
   set_enable_mismatch, set_enable_ok⟩

/-- Witness for C6_enable_self_verified: enable with status-1 reply,
disable readings, and a mismatching device reply. -/
theorem C6_enable_self_verified_witness :
    ({ sample_ctl with enable := true } : Ctl).enable = true ∧
    _get_enable sample_ctl ⟨[[17, 2, 0, 1, 80, 1]], [], []⟩ =
      (Except.ok true, { sample_ctl with enable := true },
       ⟨[], [], [] ++ get_enable_cmd⟩) ∧
    _get_enable sample_ctl ⟨[[17, 2, 0, 2, 80, 1]], [], []⟩ =
      (Except.ok false, { sample_ctl with enable := false },
       ⟨[], [], [] ++ get_enable_cmd⟩) ∧
    (_set_enable true sample_ctl ⟨[[17, 2, 0, 2, 80, 1]], [], []⟩).1 =
      Except.error Err.assertionError ∧
    _set_enable true sample_ctl ⟨[[17, 2, 0, 1, 80, 1]], [], []⟩ =
      (Except.ok (), { sample_ctl with enable := true },
       ⟨[], [],
        ([] ++ (if true then set_enable_true_cmd else set_enable_false_cmd))
          ++ get_enable_cmd⟩) := by
  have hset : _set_enable true sample_ctl ⟨[[17, 2, 0, 1, 80, 1]], [], []⟩ =
      (Except.ok (), { sample_ctl with enable := true },
       ⟨[], [],
        ([] ++ (if true then set_enable_true_cmd else set_enable_false_cmd))
          ++ get_enable_cmd⟩) :=
    C6_enable_self_verified.2.2.2.2 true sample_ctl [17, 2, 0, 1, 80, 1] []
      [] (by norm_num) (by decide)
  exact ⟨C6_enable_self_verified.1 true sample_ctl
           ⟨[[17, 2, 0, 1, 80, 1]], [], []⟩ () _ _ hset,
         C6_enable_self_verified.2.1 sample_ctl [17, 2, 0, 1, 80, 1] [] []
           (by norm_num) (by decide),
         C6_enable_self_verified.2.2.1 sample_ctl [17, 2, 0, 2, 80, 1] [] []
           (by norm_num) (by decide),
         C6_enable_self_verified.2.2.2.1 true sample_ctl [17, 2, 0, 2, 80, 1]
           [] [] (by norm_num) (by decide),
         hset⟩

/-! ### Claim C7 -/

/-- C7: construction performs exactly info-query → validate model and
firmware → set-enable (self-verified via an immediate enable query) →
home (blocking on its 6-byte ack) → one position query → blocking
absolute move to 0 mm, in that order on the wire; and a model or
firmware mismatch aborts construction right after the info exchange,
before any further byte (in particular any motion command) is sent. -/
theorem C7_startup_sequence :
    (∀ (s : Ctl) (tx : List ℕ) (i_r e_r h_r pos_r f_r : List ℕ),
      i_r.length ≤ 90 → (i_r.drop 10).take 8 = KBD101_bytes →
      bytes_to_nat_le ((i_r.drop 20).take 4) = 131080 →
      e_r.length ≤ 6 → e_r[3]? = some 1 → h_r.length ≤ 6 →
      pos_r.length ≤ 12 → f_r.length ≤ 20 →
      init_controller s ⟨[i_r, e_r, h_r, pos_r, f_r], [], tx⟩ =
        (Except.ok (),
         { model_number := KBD101_bytes,
           type := bytes_to_nat_le ((i_r.drop 18).take 2),
           serial_number := bytes_to_nat_le ((i_r.drop 6).take 4),
           firmware_v := 131080,
           hardware_v := bytes_to_nat_le ((i_r.drop 84).take 2),
           enable := true,
           position_mm := some 0,
           ch_id_bytes := some ((pos_r.drop 6).take 2),
           moving := false },
         ⟨[], [],
          tx ++ get_info_cmd ++ set_enable_true_cmd ++ get_enable_cmd ++
            home_cmd ++ get_pos_cmd ++
            ([83, 4, 6, 0] ++ [208, 1] ++ (pos_r.drop 6).take 2 ++
              le4_signed offset_counts)⟩)) ∧
    (∀ (s : Ctl) (tx i_r : List ℕ) (rest : List (List ℕ)),
      i_r.length ≤ 90 → ascii_ok ((i_r.drop 10).take 8) = true →
      (i_r.drop 10).take 8 ≠ KBD101_bytes →
      init_controller s ⟨i_r :: rest, [], tx⟩ =
        (Except.error Err.assertionError,
         { s with
             model_number := (i_r.drop 10).take 8,
             type := bytes_to_nat_le ((i_r.drop 18).take 2),
             serial_number := bytes_to_nat_le ((i_r.drop 6).take 4),
             firmware_v := bytes_to_nat_le ((i_r.drop 20).take 4),
             hardware_v := bytes_to_nat_le ((i_r.drop 84).take 2) },
         ⟨rest, [], tx ++ get_info_cmd⟩)) ∧
    (∀ (s : Ctl) (tx i_r : List ℕ) (rest : List (List ℕ)),
      i_r.length ≤ 90 → (i_r.drop 10).take 8 = KBD101_bytes →
      bytes_to_nat_le ((i_r.drop 20).take 4) ≠ 131080 →
      init_controller s ⟨i_r :: rest, [], tx⟩ =
        (Except.error Err.assertionError,
         { s with
             model_number := (i_r.drop 10).take 8,
             type := bytes_to_nat_le ((i_r.drop 18).take 2),
             serial_number := bytes_to_nat_le ((i_r.drop 6).take 4),
             firmware_v := bytes_to_nat_le ((i_r.drop 20).take 4),
             hardware_v := bytes_to_nat_le ((i_r.drop 84).take 2) },
         ⟨rest, [], tx ++ get_info_cmd⟩)) :=
  ⟨init_success, init_bad_model, init_bad_firmware⟩

/-- Witness for C7_startup_sequence: a fully scripted good device, a
wrong-model device, and a wrong-firmware device. -/
theorem C7_startup_sequence_witness :
    (init_controller init_ctl
        ⟨[List.replicate 10 0 ++ KBD101_bytes ++ [0, 0] ++ [8, 0, 2, 0] ++
            List.replicate 66 0,
          [18, 2, 0, 1, 80, 1], [68, 4, 0, 0, 80, 1],
          [18, 4, 6, 0, 208, 1, 1, 0, 160, 134, 1, 0],
          List.replicate 20 0], [], []⟩ =
      (Except.ok (),
       { model_number := KBD101_bytes,
         type := bytes_to_nat_le (((List.replicate 10 0 ++ KBD101_bytes ++
           [0, 0] ++ [8, 0, 2, 0] ++ List.replicate 66 0).drop 18).take 2),
         serial_number := bytes_to_nat_le (((List.replicate 10 0 ++
           KBD101_bytes ++ [0, 0] ++ [8, 0, 2, 0] ++
           List.replicate 66 0).drop 6).take 4),
         firmware_v := 131080,
         hardware_v := bytes_to_nat_le (((List.replicate 10 0 ++
           KBD101_bytes ++ [0, 0] ++ [8, 0, 2, 0] ++
           List.replicate 66 0).drop 84).take 2),
         enable := true,
         position_mm := some 0,
         ch_id_bytes := some ((([18, 4, 6, 0, 208, 1, 1, 0, 160, 134, 1, 0]
           : List ℕ).drop 6).take 2),
         moving := false },
       ⟨[], [],
        [] ++ get_info_cmd ++ set_enable_true_cmd ++ get_enable_cmd ++
          home_cmd ++ get_pos_cmd ++
          ([83, 4, 6, 0] ++ [208, 1] ++
            (([18, 4, 6, 0, 208, 1, 1, 0, 160, 134, 1, 0] : List ℕ).drop
              6).take 2 ++ le4_signed offset_counts)⟩)) ∧
    (init_controller init_ctl ⟨[List.replicate 90 5], [], []⟩ =
      (Except.error Err.assertionError,
       { init_ctl with
           model_number := ((List.replicate 90 5 : List ℕ).drop 10).take 8,
           type := bytes_to_nat_le (((List.replicate 90 5 : List ℕ).drop
             18).take 2),
           serial_number := bytes_to_nat_le (((List.replicate 90 5
             : List ℕ).drop 6).take 4),
           firmware_v := bytes_to_nat_le (((List.replicate 90 5
             : List ℕ).drop 20).take 4),
           hardware_v := bytes_to_nat_le (((List.replicate 90 5
             : List ℕ).drop 84).take 2) },
       ⟨[], [], [] ++ get_info_cmd⟩)) ∧
    (init_controller init_ctl
        ⟨[List.replicate 10 0 ++ KBD101_bytes ++ List.replicate 72 0], [],
         []⟩ =
      (Except.error Err.assertionError,
       { init_ctl with
           model_number := ((List.replicate 10 0 ++ KBD101_bytes ++
             List.replicate 72 0).drop 10).take 8,
           type := bytes_to_nat_le (((List.replicate 10 0 ++ KBD101_bytes ++
             List.replicate 72 0).drop 18).take 2),
           serial_number := bytes_to_nat_le (((List.replicate 10 0 ++
             KBD101_bytes ++ List.replicate 72 0).drop 6).take 4),
           firmware_v := bytes_to_nat_le (((List.replicate 10 0 ++
             KBD101_bytes ++ List.replicate 72 0).drop 20).take 4),
           hardware_v := bytes_to_nat_le (((List.replicate 10 0 ++
             KBD101_bytes ++ List.replicate 72 0).drop 84).take 2) },
       ⟨[], [], [] ++ get_info_cmd⟩)) :=
  ⟨C7_startup_sequence.1 init_ctl []
     (List.replicate 10 0 ++ KBD101_bytes ++ [0, 0] ++ [8, 0, 2, 0] ++
       List.replicate 66 0)
     [18, 2, 0, 1, 80, 1] [68, 4, 0, 0, 80, 1]
     [18, 4, 6, 0, 208, 1, 1, 0, 160, 134, 1, 0] (List.replicate 20 0)
     (by decide) (by decide) (by decide) (by decide) (by decide) (by decide)
     (by decide) (by decide),
   C7_startup_sequence.2.1 init_ctl [] (List.replicate 90 5) []
     (by decide) (by decide) (by decide),
   C7_startup_sequence.2.2 init_ctl []
     (List.replicate 10 0 ++ KBD101_bytes ++ List.replicate 72 0) []
     (by decide) (by decide) (by decide)⟩

/-! ### Claim C8 -/

/-- C8: legalization is idempotent — every millimeter value that is an
exact multiple of one encoder count (`1 / EncCnt_per_mm`) legalizes to
itself; every legalized value is an exact multiple of one encoder count;
and a successful move caches the legalized target (absolute) or the old
position plus the legalized delta (relative), not the raw request. -/
theorem C8_legalization :
    (∀ c : ℤ, legalize_mm ((c : ℚ) / EncCnt_per_mm) =
      (c : ℚ) / EncCnt_per_mm) ∧
    (∀ m : ℚ, ∃ k : ℤ, legalize_mm m = (k : ℚ) / EncCnt_per_mm) ∧
    (∀ (m : ℚ) (s : Ctl) (p : Port) (ch : List ℕ),
      s.moving = false → s.ch_id_bytes = some ch → p.rx = [] →
      -(2 ^ 31) ≤ round_half_even (m * EncCnt_per_mm) + offset_counts →
      round_half_even (m * EncCnt_per_mm) + offset_counts < 2 ^ 31 →
      position_min_mm - range_tol_mm ≤ legalize_mm m →
      legalize_mm m ≤ position_max_mm + range_tol_mm →
      (move_mm m false false s p).2.1.position_mm = some (legalize_mm m)) ∧
    (∀ (m : ℚ) (s : Ctl) (p : Port) (pos : ℚ) (ch : List ℕ),
      s.moving = false → s.position_mm = some pos →
      s.ch_id_bytes = some ch → p.rx = [] →
      -(2 ^ 31) ≤ round_half_even (m * EncCnt_per_mm) →
      round_half_even (m * EncCnt_per_mm) < 2 ^ 31 →
      position_min_mm - range_tol_mm ≤ pos + legalize_mm m →
      pos + legalize_mm m ≤ position_max_mm + range_tol_mm →
      (move_mm m true false s p).2.1.position_mm =
        some (pos + legalize_mm m)) := by
  refine ⟨legalize_mm_counts, fun m => ⟨round_half_even (m * EncCnt_per_mm),
    rfl⟩, ?_, ?_⟩
  · intro m s p ch hmov hch hrx hc1 hc2 h1 h2
    rw [move_mm_abs_char m false s p ch hmov hch hc1 hc2,
        move_tail_ok_noblock _ _ _ (legalize_mm m) rfl h1 h2 hrx]
  · intro m s p pos ch hmov hpos hch hrx hc1 hc2 h1 h2
    rw [move_mm_rel_char m false s p pos ch hmov hpos hch hc1 hc2,
        move_tail_ok_noblock _ _ _ (pos + legalize_mm m) rfl h1 h2 hrx]

/-- Witness for C8_legalization: an already-legal value (3 counts), an
arbitrary request, and concrete zero moves from the sample session. -/
theorem C8_legalization_witness :
    legalize_mm ((3 : ℤ) / EncCnt_per_mm) = ((3 : ℤ) : ℚ) / EncCnt_per_mm ∧
    (∃ k : ℤ, legalize_mm (1 / 3) = (k : ℚ) / EncCnt_per_mm) ∧
    (move_mm 0 false false sample_ctl empty_port).2.1.position_mm =
      some (legalize_mm 0) ∧
    (move_mm 0 true false sample_ctl empty_port).2.1.position_mm =
      some (50 + legalize_mm 0) :=
  ⟨C8_legalization.1 3, C8_legalization.2.1 (1 / 3),
   C8_legalization.2.2.1 0 sample_ctl empty_port [1, 0] rfl rfl rfl
     (by rw [round_zero, offset_counts_eq]; norm_num)
     (by rw [round_zero, offset_counts_eq]; norm_num)
     (by rw [legalize_zero]; norm_num [position_min_mm, range_tol_mm])
     (by rw [legalize_zero]; norm_num [position_max_mm, range_tol_mm]),
   C8_legalization.2.2.2 0 sample_ctl empty_port 50 [1, 0] rfl rfl rfl rfl
     (by rw [round_zero]; norm_num) (by rw [round_zero]; norm_num)
     (by rw [legalize_zero]; norm_num [position_min_mm, range_tol_mm])
     (by rw [legalize_zero]; norm_num [position_max_mm, range_tol_mm])⟩

/-! ### Claim C9 -/

/-- C9: a position query caches the reply's bytes 6..7 as the channel
id; every successful move command — absolute or relative — embeds the
cached channel id verbatim at the same offset of the outgoing command;
and a move attempted before any position query has populated the channel
id (or, for a relative move, the cached position) fails with an
attribute error and writes nothing — no default channel id is
substituted. -/
theorem C9_channel_handle :
    (∀ (s : Ctl) (r : List ℕ) (rest : List (List ℕ)) (tx : List ℕ),
      r.length ≤ 12 →
      (get_position_mm s ⟨r :: rest, [], tx⟩).2.1.ch_id_bytes =
        some ((r.drop 6).take 2)) ∧
    (∀ (m : ℚ) (s : Ctl) (p : Port) (ch : List ℕ),
      s.moving = false → s.ch_id_bytes = some ch → p.rx = [] →
      -(2 ^ 31) ≤ round_half_even (m * EncCnt_per_mm) + offset_counts →
      round_half_even (m * EncCnt_per_mm) + offset_counts < 2 ^ 31 →
      position_min_mm - range_tol_mm ≤ legalize_mm m →
      legalize_mm m ≤ position_max_mm + range_tol_mm →
      (move_mm m false false s p).2.2.tx =
        p.tx ++ ([83, 4, 6, 0] ++ [208, 1] ++ ch ++
          le4_signed (round_half_even (m * EncCnt_per_mm) +
            offset_counts))) ∧
    (∀ (m : ℚ) (s : Ctl) (p : Port) (pos : ℚ) (ch : List ℕ),
      s.moving = false → s.position_mm = some pos →
      s.ch_id_bytes = some ch → p.rx = [] →
      -(2 ^ 31) ≤ round_half_even (m * EncCnt_per_mm) →
      round_half_even (m * EncCnt_per_mm) < 2 ^ 31 →
      position_min_mm - range_tol_mm ≤ pos + legalize_mm m →
      pos + legalize_mm m ≤ position_max_mm + range_tol_mm →
      (move_mm m true false s p).2.2.tx =
        p.tx ++ ([72, 4, 6, 0] ++ [208, 1] ++ ch ++
          le4_signed (round_half_even (m * EncCnt_per_mm)))) ∧
    (∀ (m : ℚ) (block : Bool) (s : Ctl) (p : Port),
      s.moving = false → s.ch_id_bytes = none →
      -(2 ^ 31) ≤ round_half_even (m * EncCnt_per_mm) + offset_counts →
      round_half_even (m * EncCnt_per_mm) + offset_counts < 2 ^ 31 →
      move_mm m false block s p =
        (Except.error Err.attributeError,
         { s with position_mm := some (legalize_mm m) }, p)) ∧
    (∀ (m : ℚ) (block : Bool) (s : Ctl) (p : Port),
      s.moving = false → s.position_mm = none →
      move_mm m true block s p =
        (Except.error Err.attributeError, s, p)) := by
  refine ⟨?_, ?_, ?_, ?_, ?_⟩
  · intro s r rest tx hlen
    rw [get_position_ok s r rest tx hlen]
  · intro m s p ch hmov hch hrx hc1 hc2 h1 h2
    rw [move_mm_abs_char m false s p ch hmov hch hc1 hc2,
        move_tail_ok_noblock _ _ _ (legalize_mm m) rfl h1 h2 hrx]
  · intro m s p pos ch hmov hpos hch hrx hc1 hc2 h1 h2
    rw [move_mm_rel_char m false s p pos ch hmov hpos hch hc1 hc2,
        move_tail_ok_noblock _ _ _ (pos + legalize_mm m) rfl h1 h2 hrx]
  · intro m block s p hmov hch hc1 hc2
    exact move_mm_abs_no_channel m block s p hmov hch hc1 hc2
  · intro m block s p hmov hpos
    exact move_mm_rel_no_position m block s p hmov hpos

/-- Witness for C9_channel_handle: capture from a concrete reply, reuse
in concrete absolute and relative moves, and pre-query moves from the
freshly constructed state. -/
theorem C9_channel_handle_witness :
    (get_position_mm sample_ctl ⟨[pos_reply_ffff], [], []⟩).2.1.ch_id_bytes =
      some ((pos_reply_ffff.drop 6).take 2) ∧
    (move_mm 0 false false sample_ctl empty_port).2.2.tx =
      empty_port.tx ++ ([83, 4, 6, 0] ++ [208, 1] ++ [1, 0] ++
        le4_signed (round_half_even (0 * EncCnt_per_mm) + offset_counts)) ∧
    (move_mm 0 true false sample_ctl empty_port).2.2.tx =
      empty_port.tx ++ ([72, 4, 6, 0] ++ [208, 1] ++ [1, 0] ++
        le4_signed (round_half_even (0 * EncCnt_per_mm))) ∧
    move_mm 0 false true init_ctl empty_port =
      (Except.error Err.attributeError,
       { init_ctl with position_mm := some (legalize_mm 0) }, empty_port) ∧
    move_mm 0 true true init_ctl empty_port =
      (Except.error Err.attributeError, init_ctl, empty_port) :=
  ⟨C9_channel_handle.1 sample_ctl pos_reply_ffff [] [] (by decide),
   C9_channel_handle.2.1 0 sample_ctl empty_port [1, 0] rfl rfl rfl
     (by rw [round_zero, offset_counts_eq]; norm_num)
     (by rw [round_zero, offset_counts_eq]; norm_num)
     (by rw [legalize_zero]; norm_num [position_min_mm, range_tol_mm])
     (by rw [legalize_zero]; norm_num [position_max_mm, range_tol_mm]),
   C9_channel_handle.2.2.1 0 sample_ctl empty_port 50 [1, 0] rfl rfl rfl rfl
     (by rw [round_zero]; norm_num) (by rw [round_zero]; norm_num)
     (by rw [legalize_zero]; norm_num [position_min_mm, range_tol_mm])
     (by rw [legalize_zero]; norm_num [position_max_mm, range_tol_mm]),
   C9_channel_handle.2.2.2.1 0 true init_ctl empty_port rfl rfl
     (by rw [round_zero, offset_counts_eq]; norm_num)
     (by rw [round_zero, offset_counts_eq]; norm_num),
   C9_channel_handle.2.2.2.2 0 true init_ctl empty_port rfl rfl⟩

/-! ### Claim C10 -/

/-- C10: resolving a pending move reads exactly 20 bytes straight off
the transport: when Moving, `_finish_move` performs one raw 20-byte read,
clears the moving flag and never inspects or validates the bytes (it can
never fail), and — unlike every other exchange — performs no
leftover-bytes check: surplus bytes simply stay unread in the buffer. -/
theorem C10_finish_move_raw :
    (∀ (s : Ctl) (p : Port), s.moving = true →
      _finish_move s p =
        (Except.ok (), { s with moving := false }, (p.read 20).2)) ∧
    (∀ (s : Ctl) (p : Port), (_finish_move s p).1 = Except.ok ()) ∧
    (∀ (s : Ctl) (r : List ℕ) (rest : List (List ℕ)) (tx : List ℕ),
      s.moving = true → 20 < r.length →
      _finish_move s ⟨r :: rest, [], tx⟩ =
        (Except.ok (), { s with moving := false },
         ⟨rest, r.drop 20, tx⟩) ∧
      r.drop 20 ≠ []) := by
  refine ⟨finish_move_moving, ?_, ?_⟩
  · intro s p
    unfold _finish_move
    cases h : s.moving <;> simp [h]
  · intro s r rest tx hmov hlong
    constructor
    · rw [finish_move_moving s _ hmov,
          read_burst_over 20 r rest [] tx rfl (by norm_num)]
    · intro hc
      have hlc := congrArg List.length hc
      simp only [List.length_drop, List.length_nil] at hlc
      omega

/-- Witness for C10_finish_move_raw: finishing from the sample session
with a 25-byte burst pending leaves 5 unread bytes behind. -/
theorem C10_finish_move_raw_witness :
    _finish_move { sample_ctl with moving := true } empty_port =
      (Except.ok (),
       { { sample_ctl with moving := true } with moving := false },
       (empty_port.read 20).2) ∧
    (_finish_move sample_ctl empty_port).1 = Except.ok () ∧
    (_finish_move { sample_ctl with moving := true }
        ⟨[List.replicate 25 7], [], []⟩ =
      (Except.ok (),
       { { sample_ctl with moving := true } with moving := false },
       ⟨[], (List.replicate 25 7).drop 20, []⟩) ∧
      (List.replicate 25 7).drop 20 ≠ []) :=
  ⟨C10_finish_move_raw.1 _ empty_port rfl,
   C10_finish_move_raw.2.1 sample_ctl empty_port,
   C10_finish_move_raw.2.2 _ (List.replicate 25 7) [] [] rfl (by decide)⟩

end DDS100
